import Mathlib

/-!
Verification of the sheets-mcp server core: the argument-coercion layer
(`parseArgument` in server.go), the A1-notation range parser
(`parseGridRange` / `parseA1Notation` in handlers.go), the colour parser
(`parseColor`), and the pure request-building / batching skeletons of the
handlers `handleFormatCells`, `handleFindReplace`, `handleShareSpreadsheet`,
`handleGetMultipleSheetData` and the resource reader `handleGetSpreadsheetInfo`.

Remote collaborators (the Sheets/Drive services) are passed in as oracle
functions of type `... → Except String ...`; a handler result is either an
error envelope (respondWithError), a hard fault (a Go runtime panic, e.g. a
failed type assertion), or the remote request object the handler builds and
issues.  Go's `int64` values stay well inside 64 bits for every input
considered here, so they are modelled as `Int`.
-/

namespace SheetsMCP

/-! ## Dynamic values and the argument bag (server.go)

A `map[string]any` holding JSON-decoded data: strings, numbers (always
`float64` in Go; the numeric payload is modelled as `Int`, no claim depends
on fractional values), booleans, nested objects, arrays, null. -/

inductive DynVal : Type where
  | str (s : String)
  | num (n : Int)
  | bool (b : Bool)
  | obj (fields : List (String × DynVal))
  | arr (items : List DynVal)
  | null

/-- The dynamic (Go) type of a value: `string`, `float64`, `bool`,
`map[string]any`, `[]any`, `nil`. -/
inductive DynTag : Type where
  | str | num | bool | obj | arr | null
deriving Repr, DecidableEq

def DynVal.tag : DynVal → DynTag
  | .str _ => .str
  | .num _ => .num
  | .bool _ => .bool
  | .obj _ => .obj
  | .arr _ => .arr
  | .null => .null

/-- An argument bag: `map[string]any`, modelled as an association list
(first binding wins; a Go map has unique keys). -/
def ArgBag : Type := List (String × DynVal)

/-- Go map indexing `args[key]` with a presence flag. -/
def lookupArg (args : ArgBag) (key : String) : Option DynVal :=
  match args with
  | [] => none
  | (k, v) :: rest => if k = key then some v else lookupArg rest key

/-- server.go `parseArgument[T any](args, key, defaultValue)`: return the
stored value when present with exactly the dynamic type of the default
(the Go type assertion `val.(T)` at the concrete instantiations used),
otherwise the default, silently. -/
def parseArgument (args : ArgBag) (key : String) (defaultValue : DynVal) : DynVal :=
  match lookupArg args key with
  | some v => if v.tag = defaultValue.tag then v else defaultValue
  | none => defaultValue

/-- The source's `parseArgument` instantiated at `T = string`, as the handlers call it. -/
def parseArgumentStr (args : ArgBag) (key : String) (d : String) : String :=
  match lookupArg args key with
  | some (DynVal.str s) => s
  | _ => d

/-- The source's `parseArgument` instantiated at `T = bool`. -/
def parseArgumentBool (args : ArgBag) (key : String) (d : Bool) : Bool :=
  match lookupArg args key with
  | some (DynVal.bool b) => b
  | _ => d

/-- The source's `parseArgument` instantiated at `T = float64` (numeric payload). -/
def parseArgumentNum (args : ArgBag) (key : String) (d : Int) : Int :=
  match lookupArg args key with
  | some (DynVal.num n) => n
  | _ => d

/-! ## strings.Split (used with separators ":", "://", "/")

Go's `strings.Split(s, sep)` with a non-empty separator: split on every
non-overlapping occurrence, left to right; the result always has at least
one element. -/

/-- Is `p` a prefix of `l`? (Boolean, structural.) -/
def listStartsWith : List Char → List Char → Bool
  | [], _ => true
  | _ :: _, [] => false
  | p :: ps, c :: cs => p = c && listStartsWith ps cs

/-- Scan for the first occurrence of `sep`: returns the segment before it
and, when found, the remainder after it. -/
def breakOnSep (sep : List Char) : List Char → List Char × Option (List Char)
  | [] => ([], none)
  | c :: rest =>
    if sep ≠ [] ∧ listStartsWith sep (c :: rest) then
      ([], some (List.drop (sep.length - 1) rest))
    else
      let p := breakOnSep sep rest
      (c :: p.1, p.2)

def splitOnSepFuel (sep : List Char) : Nat → List Char → List (List Char)
  | 0, l => [l]
  | fuel + 1, l =>
    match breakOnSep sep l with
    | (seg, none) => [seg]
    | (seg, some rem) => seg :: splitOnSepFuel sep fuel rem

/-- Go `strings.Split` on character lists (the fuel `l.length + 1` is enough:
each removed separator occurrence consumes at least one character). -/
def splitOnSep (sep : List Char) (l : List Char) : List (List Char) :=
  splitOnSepFuel sep (l.length + 1) l

/-! ## A1-notation parsing (handlers.go `parseA1Notation`, `parseGridRange`) -/

/-- Go byte comparison `'A' <= c && c <= 'Z'` (codes 65..90). -/
def isUpperAZ (c : Char) : Bool := decide (65 ≤ c.toNat) && decide (c.toNat ≤ 90)

/-- Go byte comparison `'0' <= c && c <= '9'` (codes 48..57). -/
def isDigit09 (c : Char) : Bool := decide (48 ≤ c.toNat) && decide (c.toNat ≤ 57)

/-- The first loop of `parseA1Notation`: consume leading uppercase letters,
accumulating `col = col*26 + (c - 'A' + 1)`; returns the accumulator and the
unconsumed remainder. -/
def consumeLetters : List Char → Int → Int × List Char
  | [], acc => (acc, [])
  | c :: cs, acc =>
    if isUpperAZ c then
      consumeLetters cs (acc * 26 + ((c.toNat : Int) - ('A'.toNat : Int) + 1))
    else (acc, c :: cs)

/-- The second loop of `parseA1Notation`: every remaining character must be a
digit, accumulating `row = row*10 + (c - '0')`; `none` on a non-digit. -/
def consumeDigits : List Char → Int → Option Int
  | [], acc => some acc
  | c :: cs, acc =>
    if isDigit09 c then consumeDigits cs (acc * 10 + ((c.toNat : Int) - ('0'.toNat : Int)))
    else none

/-- handlers.go `parseA1Notation(cell) (col, row, err)`: decode a base-26
column-letter run then a decimal row number, zero-basing both; error when the
string is exhausted right after the letter run, or when a non-digit follows.
(Go returns `(0, 0, err)` on failure; the error case carries no partial
result.) -/
def parseA1Cell (cell : String) : Except String (Int × Int) :=
  match consumeLetters cell.data 0 with
  | (_, []) => Except.error ("invalid cell notation: " ++ cell)
  | (colAcc, c :: rest) =>
    match consumeDigits (c :: rest) 0 with
    | none => Except.error ("invalid cell notation: " ++ cell)
    | some row => Except.ok (colAcc - 1, row - 1)

/-- Model of `sheets.GridRange`: zero-based, end-exclusive rectangle on one sheet. -/
structure GridRange : Type where
  sheetId : Int
  startRowIndex : Int
  endRowIndex : Int
  startColumnIndex : Int
  endColumnIndex : Int
deriving Repr, DecidableEq

/-- handlers.go `parseGridRange(sheetID, rangeStr)`: split on `":"`, require
exactly two cell references, decode both, use the first as the (inclusive)
start and the second plus one as the exclusive end. -/
def parseGridRange (sheetID : Int) (rangeStr : String) : Except String GridRange :=
  match splitOnSep [':'] rangeStr.data with
  | [p1, p2] =>
    match parseA1Cell (String.mk p1) with
    | Except.error e => Except.error e
    | Except.ok (startCol, startRow) =>
      match parseA1Cell (String.mk p2) with
      | Except.error e => Except.error e
      | Except.ok (endCol, endRow) =>
        Except.ok { sheetId := sheetID, startRowIndex := startRow, endRowIndex := endRow + 1,
                    startColumnIndex := startCol, endColumnIndex := endCol + 1 }
  | _ => Except.error "range must be in A1:B2 format"

/-! ## Colour parsing (handlers.go `parseColor`) -/

/-- Model of `sheets.Color` (float components modelled by their `Int` payloads; no
claim depends on fractional values, and the parser passes components through
unchanged). -/
structure SheetColor : Type where
  red : Int
  green : Int
  blue : Int
  alpha : Int
deriving Repr, DecidableEq

/-- handlers.go `parseColor(colorRaw)`: the value must be a nested object;
missing components default to 0 (alpha to 1); no clamping. -/
def parseColor : DynVal → Except String SheetColor
  | DynVal.obj fields =>
    Except.ok { red := parseArgumentNum fields "red" 0,
                green := parseArgumentNum fields "green" 0,
                blue := parseArgumentNum fields "blue" 0,
                alpha := parseArgumentNum fields "alpha" 1 }
  | _ => Except.error "color must be an object with red, green, blue fields"

/-! ## format_cells (handlers.go `handleFormatCells`)

The handler validates required arguments, resolves the sheet id through the
remote lookup (oracle `getSheetID`), parses the grid range, then assembles a
`sheets.CellFormat` from the optional arguments.  The optional `bold`,
`italic` and `font_size` arguments are read with *unchecked* Go type
assertions (`bold.(bool)`, `italic.(bool)`, `fontSize.(float64)`): a present
value of the wrong dynamic type is a runtime panic, modelled as
`FormatOutcome.hardFault`.  A malformed colour object is silently skipped
(its `err` is discarded).  The final remote batch-update call is represented
by the request object the handler builds (`FormatOutcome.request`). -/

/-- Model of `sheets.TextFormat` (zero values as in Go). -/
structure SheetTextFormat : Type where
  foregroundColor : Option SheetColor := none
  bold : Bool := false
  italic : Bool := false
  fontSize : Int := 0
deriving Repr, DecidableEq

/-- Model of `sheets.CellFormat` (the `TextFormat` pointer is nil until first needed). -/
structure CellFormat : Type where
  backgroundColor : Option SheetColor := none
  textFormat : Option SheetTextFormat := none
deriving Repr, DecidableEq

/-- Model of the nil-check `if cellFormat.TextFormat == nil` followed by allocation. -/
def ensureTextFormat (cf : CellFormat) : SheetTextFormat :=
  match cf.textFormat with
  | some tf => tf
  | none => {}

inductive FormatOutcome : Type where
  /-- Via `respondWithError`: the uniform error envelope. -/
  | envelope (msg : String)
  /-- A Go runtime panic escaping the handler (failed type assertion). -/
  | hardFault (msg : String)
  /-- The `RepeatCell` batch-update request issued to the remote service. -/
  | request (sheetId : Int) (range : GridRange) (format : CellFormat) (fields : List String)
deriving Repr, DecidableEq

/-- The `background_color` step: parse errors are silently discarded. -/
def applyBackgroundColor (args : ArgBag) (st : CellFormat × List String) :
    CellFormat × List String :=
  match lookupArg args "background_color" with
  | none => st
  | some raw =>
    match parseColor raw with
    | Except.error _ => st
    | Except.ok c => ({ st.1 with backgroundColor := some c }, st.2 ++ ["backgroundColor"])

/-- The `text_color` step: parse errors are silently discarded. -/
def applyTextColor (args : ArgBag) (st : CellFormat × List String) :
    CellFormat × List String :=
  match lookupArg args "text_color" with
  | none => st
  | some raw =>
    match parseColor raw with
    | Except.error _ => st
    | Except.ok c =>
      ({ st.1 with textFormat := some { ensureTextFormat st.1 with foregroundColor := some c } },
       st.2 ++ ["textFormat.foregroundColor"])

/-- The `bold` step: `bold.(bool)` is an unchecked assertion — wrong dynamic
type panics (`Except.error` here means a hard fault, not an envelope). -/
def applyBold (args : ArgBag) (st : CellFormat × List String) :
    Except String (CellFormat × List String) :=
  match lookupArg args "bold" with
  | none => Except.ok st
  | some (DynVal.bool b) =>
    Except.ok ({ st.1 with textFormat := some { ensureTextFormat st.1 with bold := b } },
               st.2 ++ ["textFormat.bold"])
  | some _ => Except.error "interface conversion: bold is not a bool"

/-- The `italic` step: `italic.(bool)` is an unchecked assertion. -/
def applyItalic (args : ArgBag) (st : CellFormat × List String) :
    Except String (CellFormat × List String) :=
  match lookupArg args "italic" with
  | none => Except.ok st
  | some (DynVal.bool b) =>
    Except.ok ({ st.1 with textFormat := some { ensureTextFormat st.1 with italic := b } },
               st.2 ++ ["textFormat.italic"])
  | some _ => Except.error "interface conversion: italic is not a bool"

/-- The `font_size` step: `fontSize.(float64)` is an unchecked assertion. -/
def applyFontSize (args : ArgBag) (st : CellFormat × List String) :
    Except String (CellFormat × List String) :=
  match lookupArg args "font_size" with
  | none => Except.ok st
  | some (DynVal.num n) =>
    Except.ok ({ st.1 with textFormat := some { ensureTextFormat st.1 with fontSize := n } },
               st.2 ++ ["textFormat.fontSize"])
  | some _ => Except.error "interface conversion: font_size is not a float64"

/-- The sequence of optional-field statements of `handleFormatCells`:
colours first (errors silently skipped), then the three unchecked type
assertions, a failure of which aborts the whole sequence (the panic
propagates). -/
def buildCellFormat (args : ArgBag) : Except String (CellFormat × List String) :=
  let st0 : CellFormat × List String := ({}, [])
  let st1 := applyBackgroundColor args st0
  let st2 := applyTextColor args st1
  Except.bind (applyBold args st2) (fun st3 =>
    Except.bind (applyItalic args st3) (fun st4 => applyFontSize args st4))

/-- The tail of `handleFormatCells`: a panic escapes; otherwise require at
least one formatting field and build the `RepeatCell` request. -/
def formatOutcomeOf (sheetID : Int) (gridRange : GridRange) :
    Except String (CellFormat × List String) → FormatOutcome
  | Except.error m => FormatOutcome.hardFault m
  | Except.ok st =>
    if st.2 = [] then FormatOutcome.envelope "at least one formatting option must be provided"
    else FormatOutcome.request sheetID gridRange st.1 st.2

/-- handlers.go `handleFormatCells`, up to the remote batch-update call. -/
def handleFormatCells (getSheetID : String → String → Except String Int)
    (args : ArgBag) : FormatOutcome :=
  let spreadsheetID := parseArgumentStr args "spreadsheet_id" ""
  let sheet := parseArgumentStr args "sheet" ""
  let rangeStr := parseArgumentStr args "range" ""
  if spreadsheetID = "" ∨ sheet = "" ∨ rangeStr = "" then
    FormatOutcome.envelope "spreadsheet_id, sheet, and range are required"
  else
    match getSheetID spreadsheetID sheet with
    | Except.error e => FormatOutcome.envelope ("failed to get sheet ID: " ++ e)
    | Except.ok sheetID =>
      match parseGridRange sheetID rangeStr with
      | Except.error e => FormatOutcome.envelope ("invalid range format: " ++ e)
      | Except.ok gridRange => formatOutcomeOf sheetID gridRange (buildCellFormat args)

/-! ## find_replace (handlers.go `handleFindReplace`) -/

/-- Model of `sheets.FindReplaceRequest` as the handler fills it. -/
structure FindReplaceRequest : Type where
  find : String
  replacement : String
  allSheets : Bool
  matchCase : Bool
  matchEntireCell : Bool
  searchByRegex : Bool
  includeFormulas : Bool
  sheetId : Int := 0
deriving Repr, DecidableEq

inductive FindReplaceOutcome : Type where
  | envelope (msg : String)
  /-- The `FindReplace` batch-update request issued to the remote service. -/
  | request (r : FindReplaceRequest)
deriving Repr, DecidableEq

/-- handlers.go `handleFindReplace`, up to the remote batch-update call. -/
def handleFindReplace (getSheetID : String → String → Except String Int)
    (args : ArgBag) : FindReplaceOutcome :=
  let spreadsheetID := parseArgumentStr args "spreadsheet_id" ""
  let find := parseArgumentStr args "find" ""
  let replacement := parseArgumentStr args "replacement" ""
  let allSheets := parseArgumentBool args "all_sheets" false
  let matchCase := parseArgumentBool args "match_case" false
  let matchEntireCell := parseArgumentBool args "match_entire_cell" false
  if spreadsheetID = "" ∨ find = "" then
    FindReplaceOutcome.envelope "spreadsheet_id and find are required"
  else
    let req : FindReplaceRequest :=
      { find := find, replacement := replacement, allSheets := allSheets,
        matchCase := matchCase, matchEntireCell := matchEntireCell,
        searchByRegex := false, includeFormulas := true, sheetId := 0 }
    if allSheets = false then
      let sheet := parseArgumentStr args "sheet" ""
      if sheet = "" then
        FindReplaceOutcome.envelope "sheet is required when all_sheets is false"
      else
        match getSheetID spreadsheetID sheet with
        | Except.error e => FindReplaceOutcome.envelope ("failed to get sheet ID: " ++ e)
        | Except.ok sid => FindReplaceOutcome.request { req with sheetId := sid }
    else
      FindReplaceOutcome.request req

/-! ## share_spreadsheet (handlers.go `handleShareSpreadsheet`)

A recipient entry is decoded from JSON into a `map[string]string`; a missing
key reads as `""`.  The per-recipient remote permission creation is the
oracle `createPerm : email → role → sendNotification → Except String
permissionId`.  The loop accumulates two separate lists, `successes` and
`failures`, and the handler responds with both under distinct keys. -/

structure Recipient : Type where
  email : String
  role : String
deriving Repr, DecidableEq

inductive ShareOutcome : Type where
  /-- An entry of the `successes` list. -/
  | success (email : String) (role : String) (permissionId : String)
  /-- An entry of the `failures` list (the email is `none` when the entry
  had no usable address). -/
  | failure (email : Option String) (error : String)
deriving Repr, DecidableEq

def invalidRoleMsg (role : String) : String :=
  "Invalid role \x27" ++ role ++ "\x27. Must be \x27reader\x27, \x27commenter\x27, or \x27writer\x27."

def ShareOutcome.isSuccess : ShareOutcome → Bool
  | .success _ _ _ => true
  | .failure _ _ => false

/-- One iteration of the recipients loop: default the role to `"writer"`,
reject a missing email, reject an unknown role, otherwise create the
permission through the remote oracle. -/
def processOneRecipient (createPerm : String → String → Bool → Except String String)
    (sendNotification : Bool) (r : Recipient) : ShareOutcome :=
  let role := if r.role = "" then "writer" else r.role
  if r.email = "" then
    ShareOutcome.failure none "Missing email_address in recipient entry."
  else if ¬(role = "reader") ∧ ¬(role = "commenter") ∧ ¬(role = "writer") then
    ShareOutcome.failure (some r.email) (invalidRoleMsg role)
  else
    match createPerm r.email role sendNotification with
    | Except.error e => ShareOutcome.failure (some r.email) ("Failed to share: " ++ e)
    | Except.ok pid => ShareOutcome.success r.email role pid

/-- The recipients loop of `handleShareSpreadsheet`: appends each outcome to
the `successes` or the `failures` list and continues; returns the pair
`(successes, failures)` that the handler responds with. -/
def shareRecipientsLoop (createPerm : String → String → Bool → Except String String)
    (sendNotification : Bool) : List Recipient → List ShareOutcome × List ShareOutcome
  | [] => ([], [])
  | r :: rest =>
    let out := processOneRecipient createPerm sendNotification r
    let p := shareRecipientsLoop createPerm sendNotification rest
    if out.isSuccess then (out :: p.1, p.2) else (p.1, out :: p.2)

/-- Modelled from the spec (§4.5), for comparison with the code: the batch
executor is claimed to aggregate all per-recipient outcomes into **one**
ordered result list preserving the input order of the recipients. -/
def shareAggregatedSpec (createPerm : String → String → Bool → Except String String)
    (sendNotification : Bool) (recipients : List Recipient) : List ShareOutcome :=
  recipients.map (processOneRecipient createPerm sendNotification)

/-! ## get_multiple_sheet_data (handlers.go `handleGetMultipleSheetData`)

Each query is decoded into a `map[string]string` (missing keys read as `""`).
The remote values fetch is the oracle
`fetch : spreadsheetID → fullRange → Except String values`. -/

structure MultiQuery : Type where
  spreadsheetId : String
  sheet : String
  rangeStr : String
deriving Repr, DecidableEq

/-- One entry of the result list: every entry repeats the query's
identifying keys, and carries either an `error` field or a `data` field,
never both. -/
inductive MultiItem : Type where
  | err (spreadsheetId sheet rangeStr : String) (error : String)
  | data (spreadsheetId sheet rangeStr : String) (values : List (List DynVal))

def missingKeysMsg : String := "Missing required keys (spreadsheet_id, sheet, range)"

/-- The query loop of `handleGetMultipleSheetData`: a query with any empty
required field, or a failing remote fetch, is recorded as an error entry and
the loop continues with the next query. -/
def processMultiQueries (fetch : String → String → Except String (List (List DynVal))) :
    List MultiQuery → List MultiItem
  | [] => []
  | q :: rest =>
    let item :=
      if q.spreadsheetId = "" ∨ q.sheet = "" ∨ q.rangeStr = "" then
        MultiItem.err q.spreadsheetId q.sheet q.rangeStr missingKeysMsg
      else
        match fetch q.spreadsheetId (q.sheet ++ "!" ++ q.rangeStr) with
        | Except.error e => MultiItem.err q.spreadsheetId q.sheet q.rangeStr e
        | Except.ok vs => MultiItem.data q.spreadsheetId q.sheet q.rangeStr vs
    item :: processMultiQueries fetch rest

/-! ## Spreadsheet-info resource read (handlers.go `handleGetSpreadsheetInfo`)

The resource path has no envelope convention: a malformed URI is a hard
failure of the read.  The model covers the URI parsing up to the remote
`Spreadsheets.Get(spreadsheetID)` call, which `InfoResult.remoteCall`
records together with the id it would be issued with. -/

inductive InfoResult : Type where
  /-- The resource read fails before any remote call. -/
  | uriFailure (msg : String)
  /-- The handler reaches the remote metadata fetch for this id. -/
  | remoteCall (spreadsheetID : String)
deriving Repr, DecidableEq

/-- handlers.go `handleGetSpreadsheetInfo`, up to the remote call:
split the URI on `"://"` (exactly two parts required), split the remainder
on `"/"`, take the first segment as the spreadsheet id. -/
def handleGetSpreadsheetInfo (uri : String) : InfoResult :=
  let parts := splitOnSep [':', '/', '/'] uri.data
  if parts.length ≠ 2 then InfoResult.uriFailure "invalid URI format"
  else
    let pathParts := splitOnSep ['/'] (parts.getD 1 [])
    if pathParts.length < 1 then
      InfoResult.uriFailure "invalid URI format: missing spreadsheet_id"
    else
      InfoResult.remoteCall (String.mk (pathParts.getD 0 []))

/-- Does the resource read fail with the missing-spreadsheet-id message? -/
def isMissingIdFailure : InfoResult → Bool
  | InfoResult.uriFailure m => m = "invalid URI format: missing spreadsheet_id"
  | _ => false

/-! ## Specification-side shape predicates and valuation functions -/

/-- The value the letter loop accumulates over a run of uppercase letters
(base 26, `A` = 1), starting from `acc`. -/
def lettersVal (acc : Int) : List Char → Int
  | [] => acc
  | c :: cs => lettersVal (acc * 26 + ((c.toNat : Int) - ('A'.toNat : Int) + 1)) cs

/-- The value the digit loop accumulates over a run of decimal digits,
starting from `acc`. -/
def digitsVal (acc : Int) : List Char → Int
  | [] => acc
  | c :: cs => digitsVal (acc * 10 + ((c.toNat : Int) - ('0'.toNat : Int))) cs

/-- The zero-based column decoded from a letter run (the letter loop's
accumulator followed by the `col--` of `parseA1Notation`). -/
def decodeColumn (s : String) : Int := (consumeLetters s.data 0).1 - 1

/-- The remainder of the cell string after the maximal leading
uppercase-letter run (position `i` reached by the first loop). -/
def restAfterLetters (cell : String) : List Char := (consumeLetters cell.data 0).2

def isOkCell : Except String (Int × Int) → Bool
  | Except.ok _ => true
  | Except.error _ => false

/-- The claim's notion of a well-formed cell: a non-empty uppercase-letter
run followed by a non-empty digit run. -/
def wellFormedCellB (l : List Char) : Bool :=
  let letters := l.takeWhile isUpperAZ
  let rest := l.dropWhile isUpperAZ
  !letters.isEmpty && !rest.isEmpty && rest.all isDigit09

/-- The claim's notion of a well-formed range string:
`"{letters}{digits}:{letters}{digits}"`. -/
def wellFormedRangeB (s : String) : Bool :=
  match splitOnSep [':'] s.data with
  | [p1, p2] => wellFormedCellB p1 && wellFormedCellB p2
  | _ => false

/-- Assemble a range string from its four runs. -/
def rangeOfParts (ls1 ds1 ls2 ds2 : List Char) : String :=
  String.mk ((ls1 ++ ds1) ++ ':' :: (ls2 ++ ds2))

/-- Does the grid range have a non-empty extent (`startRow < endRowExclusive`
and `startCol < endColExclusive`)? -/
def hasPositiveExtent (g : GridRange) : Bool :=
  decide (g.startRowIndex < g.endRowIndex) && decide (g.startColumnIndex < g.endColumnIndex)

def isHardFaultB : FormatOutcome → Bool
  | FormatOutcome.hardFault _ => true
  | _ => false

/-- Is the optional argument `key` absent, or present with dynamic type `t`?
(The condition under which the corresponding Go type assertion is safe.) -/
def fieldTagOkB (args : ArgBag) (key : String) (t : DynTag) : Bool :=
  match lookupArg args key with
  | none => true
  | some v => v.tag = t

/-! ## Concrete inputs and oracle stubs used by witnesses and counterexamples -/

/-- A sheet-id lookup oracle that always resolves to sheet id 0. -/
def stubSheetID : String → String → Except String Int := fun _ _ => Except.ok 0

/-- A permission-creation oracle that always succeeds with id `"p1"`. -/
def alwaysOkPerm : String → String → Bool → Except String String :=
  fun _ _ _ => Except.ok "p1"

/-- A values-fetch oracle that always returns one cell. -/
def stubFetch : String → String → Except String (List (List DynVal)) :=
  fun _ _ => Except.ok [[DynVal.str "v"]]

/-- format_cells arguments whose optional `bold` is bound to a string. -/
def badBoldArgs : ArgBag :=
  [("spreadsheet_id", DynVal.str "sid"), ("sheet", DynVal.str "Sheet1"),
   ("range", DynVal.str "A1:B2"), ("bold", DynVal.str "yes")]

/-- format_cells arguments with correctly typed optional fields. -/
def goodFormatArgs : ArgBag :=
  [("spreadsheet_id", DynVal.str "sid"), ("sheet", DynVal.str "Sheet1"),
   ("range", DynVal.str "A1:B2"), ("bold", DynVal.bool true),
   ("font_size", DynVal.num 12)]

/-- find_replace arguments with `all_sheets` set. -/
def frArgs : ArgBag :=
  [("spreadsheet_id", DynVal.str "sid"), ("find", DynVal.str "x"),
   ("all_sheets", DynVal.bool true)]

/-- The request `handleFindReplace` builds for `frArgs`. -/
def frReq : FindReplaceRequest :=
  { find := "x", replacement := "", allSheets := true, matchCase := false,
    matchEntireCell := false, searchByRegex := false, includeFormulas := true, sheetId := 0 }

/-- Three share recipients: valid, invalid role, valid. -/
def shareRecipients3 : List Recipient :=
  [⟨"a@x.com", "writer"⟩, ⟨"b@x.com", "admin"⟩, ⟨"c@x.com", "reader"⟩]

def shareOut1 : ShareOutcome := ShareOutcome.success "a@x.com" "writer" "p1"

def shareOut2 : ShareOutcome := ShareOutcome.failure (some "b@x.com") (invalidRoleMsg "admin")

def shareOut3 : ShareOutcome := ShareOutcome.success "c@x.com" "reader" "p1"

/-- Three multi-read queries; the second has an empty `sheet`. -/
def mq1 : MultiQuery := ⟨"s1", "Sheet1", "A1:B2"⟩

def mq2 : MultiQuery := ⟨"s2", "", "A1:B2"⟩

def mq3 : MultiQuery := ⟨"s3", "Sheet3", "C1:C9"⟩

/-- The property that every find/replace request the handler can issue has
regex search disabled and formula cells included. -/
def requestFlagsOk : FindReplaceOutcome → Prop
  | FindReplaceOutcome.envelope _ => True
  | FindReplaceOutcome.request r => r.searchByRegex = false ∧ r.includeFormulas = true

/-! ## Lemmas about the two loops of `parseA1Notation` -/

theorem isDigit09_not_upper (c : Char) (h : isDigit09 c = true) : isUpperAZ c = false := by
  simp only [isDigit09, Bool.and_eq_true, decide_eq_true_eq] at h
  simp only [isUpperAZ, Bool.and_eq_false_iff, decide_eq_false_iff_not]
  left
  omega

theorem isUpperAZ_ne_colon (c : Char) (h : isUpperAZ c = true) : c ≠ ':' := by
  intro he
  subst he
  simp [isUpperAZ] at h

theorem isDigit09_ne_colon (c : Char) (h : isDigit09 c = true) : c ≠ ':' := by
  intro he
  subst he
  simp [isDigit09] at h

theorem consumeLetters_append (ls rest : List Char) (acc : Int)
    (h : ∀ c ∈ ls, isUpperAZ c = true) :
    consumeLetters (ls ++ rest) acc = consumeLetters rest (lettersVal acc ls) := by
  induction ls generalizing acc with
  | nil => simp [lettersVal]
  | cons c cs ih =>
    have hc : isUpperAZ c = true := h c (by simp)
    simp only [List.cons_append, consumeLetters, hc, if_true, lettersVal]
    exact ih _ (fun d hd => h d (by simp [hd]))

theorem consumeLetters_stop (c : Char) (cs : List Char) (acc : Int)
    (h : isUpperAZ c = false) :
    consumeLetters (c :: cs) acc = (acc, c :: cs) := by
  simp [consumeLetters, h]

theorem consumeDigits_all (ds : List Char) (acc : Int)
    (h : ∀ c ∈ ds, isDigit09 c = true) :
    consumeDigits ds acc = some (digitsVal acc ds) := by
  induction ds generalizing acc with
  | nil => simp [consumeDigits, digitsVal]
  | cons c cs ih =>
    have hc : isDigit09 c = true := h c (by simp)
    simp only [consumeDigits, hc, if_true, digitsVal]
    exact ih _ (fun d hd => h d (by simp [hd]))

theorem consumeDigits_eq_none_iff (l : List Char) (acc : Int) :
    consumeDigits l acc = none ↔ ∃ c ∈ l, isDigit09 c = false := by
  induction l generalizing acc with
  | nil => simp [consumeDigits]
  | cons c cs ih =>
    by_cases hc : isDigit09 c = true
    · simp [consumeDigits, hc, ih]
    · have hc2 : isDigit09 c = false := by
        cases hb : isDigit09 c
        · rfl
        · exact absurd hb hc
      simp [consumeDigits, hc2]

/-- A well-formed cell (non-empty letter run, non-empty digit run) decodes to
the letter run's base-26 value and the digit run's decimal value, zero-based. -/
theorem parseA1Cell_parts (ls ds : List Char)
    (hls : ∀ c ∈ ls, isUpperAZ c = true)
    (hds : ∀ c ∈ ds, isDigit09 c = true) (hdsn : ds ≠ []) :
    parseA1Cell (String.mk (ls ++ ds)) =
      Except.ok (lettersVal 0 ls - 1, digitsVal 0 ds - 1) := by
  obtain ⟨d, tl, rfl⟩ := List.exists_cons_of_ne_nil hdsn
  have hd : isDigit09 d = true := hds d (by simp)
  have hnotup : isUpperAZ d = false := isDigit09_not_upper d hd
  have hdata : (String.mk (ls ++ d :: tl)).data = ls ++ d :: tl := rfl
  unfold parseA1Cell
  rw [hdata, consumeLetters_append ls (d :: tl) 0 hls, consumeLetters_stop d tl _ hnotup]
  simp [consumeDigits_all (d :: tl) 0 hds]

/-! ## Lemmas about `strings.Split` -/

theorem breakOnSep_not_found (s : Char) (l : List Char) (h : ∀ c ∈ l, c ≠ s) :
    breakOnSep [s] l = (l, none) := by
  induction l with
  | nil => rfl
  | cons c cs ih =>
    have hne : ¬(s = c) := fun he => (h c (by simp)) he.symm
    simp [breakOnSep, listStartsWith, hne, ih (fun d hd => h d (by simp [hd]))]

theorem breakOnSep_found (s : Char) (l1 l2 : List Char) (h : ∀ c ∈ l1, c ≠ s) :
    breakOnSep [s] (l1 ++ s :: l2) = (l1, some l2) := by
  induction l1 with
  | nil => simp [breakOnSep, listStartsWith]
  | cons c cs ih =>
    have hne : ¬(s = c) := fun he => (h c (by simp)) he.symm
    simp [breakOnSep, listStartsWith, hne, ih (fun d hd => h d (by simp [hd]))]

theorem splitOnSepFuel_no_sep (s : Char) (fuel : Nat) (l : List Char)
    (h : ∀ c ∈ l, c ≠ s) :
    splitOnSepFuel [s] fuel l = [l] := by
  cases fuel with
  | zero => rfl
  | succ n => simp [splitOnSepFuel, breakOnSep_not_found s l h]

theorem splitOnSep_pair (s : Char) (l1 l2 : List Char)
    (h1 : ∀ c ∈ l1, c ≠ s) (h2 : ∀ c ∈ l2, c ≠ s) :
    splitOnSep [s] (l1 ++ s :: l2) = [l1, l2] := by
  show splitOnSepFuel [s] ((l1 ++ s :: l2).length + 1) (l1 ++ s :: l2) = [l1, l2]
  rw [show (l1 ++ s :: l2).length + 1 = (l1.length + l2.length + 1) + 1 by simp; omega]
  simp only [splitOnSepFuel, breakOnSep_found s l1 l2 h1]
  rw [breakOnSep_not_found s l2 h2]

theorem splitOnSepFuel_length_pos (sep : List Char) (fuel : Nat) (l : List Char) :
    1 ≤ (splitOnSepFuel sep fuel l).length := by
  cases fuel with
  | zero => simp [splitOnSepFuel]
  | succ n =>
    unfold splitOnSepFuel
    rcases h : breakOnSep sep l with ⟨seg, rem⟩
    cases rem <;> simp

/-! ## Lemmas about the format_cells optional-field steps -/

theorem applyBold_ok (args : ArgBag) (st : CellFormat × List String)
    (h : fieldTagOkB args "bold" DynTag.bool = true) :
    ∃ st2, applyBold args st = Except.ok st2 := by
  unfold fieldTagOkB at h
  unfold applyBold
  rcases hv : lookupArg args "bold" with _ | v
  · exact ⟨st, rfl⟩
  · rw [hv] at h
    cases v <;> simp_all [DynVal.tag]

theorem applyItalic_ok (args : ArgBag) (st : CellFormat × List String)
    (h : fieldTagOkB args "italic" DynTag.bool = true) :
    ∃ st2, applyItalic args st = Except.ok st2 := by
  unfold fieldTagOkB at h
  unfold applyItalic
  rcases hv : lookupArg args "italic" with _ | v
  · exact ⟨st, rfl⟩
  · rw [hv] at h
    cases v <;> simp_all [DynVal.tag]

theorem applyFontSize_ok (args : ArgBag) (st : CellFormat × List String)
    (h : fieldTagOkB args "font_size" DynTag.num = true) :
    ∃ st2, applyFontSize args st = Except.ok st2 := by
  unfold fieldTagOkB at h
  unfold applyFontSize
  rcases hv : lookupArg args "font_size" with _ | v
  · exact ⟨st, rfl⟩
  · rw [hv] at h
    cases v <;> simp_all [DynVal.tag]

theorem splitOnSep_length_pos (sep : List Char) (l : List Char) :
    1 ≤ (splitOnSep sep l).length :=
  splitOnSepFuel_length_pos sep (l.length + 1) l

theorem buildCellFormat_ok (args : ArgBag)
    (hb : fieldTagOkB args "bold" DynTag.bool = true)
    (hi : fieldTagOkB args "italic" DynTag.bool = true)
    (hf : fieldTagOkB args "font_size" DynTag.num = true) :
    ∃ st, buildCellFormat args = Except.ok st := by
  obtain ⟨st3, h3⟩ := applyBold_ok args
    (applyTextColor args (applyBackgroundColor args ({}, []))) hb
  obtain ⟨st4, h4⟩ := applyItalic_ok args st3 hi
  obtain ⟨st5, h5⟩ := applyFontSize_ok args st4 hf
  refine ⟨st5, ?_⟩
  simp [buildCellFormat, h3, h4, h5, Except.bind]

/-! ## Claims -/

/-- Claim C1, counterexample: invoking format_cells with the required fields
present and the optional `bold` bound to a *string* does not produce an
error envelope — the unchecked type assertion `bold.(bool)` at
handlers.go:1144 is a hard fault (runtime panic). -/
theorem claim_C1_counterexample :
    handleFormatCells stubSheetID badBoldArgs =
      FormatOutcome.hardFault "interface conversion: bold is not a bool" := by
  rfl

/-- Claim C1 (amended): the validation the handler itself performs (missing
required fields, unresolvable sheet, malformed range) is returned as an
error envelope, and whenever each of the optional fields `bold`, `italic`
and `font_size` is absent or bound to a value of its expected dynamic type,
`handleFormatCells` never raises a hard fault; but a present value of the
wrong dynamic type panics (see the counterexample). -/
theorem claim_C1_amended (getSheetID : String → String → Except String Int) (args : ArgBag)
    (hb : fieldTagOkB args "bold" DynTag.bool = true)
    (hi : fieldTagOkB args "italic" DynTag.bool = true)
    (hf : fieldTagOkB args "font_size" DynTag.num = true) :
    isHardFaultB (handleFormatCells getSheetID args) = false := by
  simp only [handleFormatCells]
  split
  · rfl
  · split
    · rfl
    · split
      · rfl
      · obtain ⟨st, h5⟩ := buildCellFormat_ok args hb hi hf
        rw [h5]
        simp only [formatOutcomeOf]
        split <;> rfl

/-- Claim C1, witness for the amended theorem at a concrete invocation. -/
theorem claim_C1_witness :
    (fieldTagOkB goodFormatArgs "bold" DynTag.bool = true
      ∧ fieldTagOkB goodFormatArgs "italic" DynTag.bool = true
      ∧ fieldTagOkB goodFormatArgs "font_size" DynTag.num = true)
    ∧ isHardFaultB (handleFormatCells stubSheetID goodFormatArgs) = false :=
  ⟨⟨by decide, by decide, by decide⟩,
   claim_C1_amended stubSheetID goodFormatArgs (by decide) (by decide) (by decide)⟩

/-- Claim C2, counterexample: `"B2:A1"` is well-formed in the claim's sense
(`{letters}{digits}:{letters}{digits}`), yet `parseGridRange` yields a
`GridRange` with `startRow = endRowExclusive = 1` (and likewise for the
columns), violating `startRow < endRowExclusive`. -/
theorem claim_C2_counterexample :
    wellFormedRangeB "B2:A1" = true
    ∧ parseGridRange 0 "B2:A1" =
        Except.ok { sheetId := 0, startRowIndex := 1, endRowIndex := 1,
                    startColumnIndex := 1, endColumnIndex := 1 }
    ∧ hasPositiveExtent { sheetId := 0, startRowIndex := 1, endRowIndex := 1,
                          startColumnIndex := 1, endColumnIndex := 1 } = false := by
  exact ⟨rfl, rfl, rfl⟩

/-- Claim C2 (amended): for every well-formed
`"{letters}{digits}:{letters}{digits}"` string **whose start cell lies
weakly above and to the left of its end cell** (first row value at most the
second, first column value at most the second), `parseGridRange` returns the
expected zero-based, end-exclusive `GridRange`, and it satisfies
`startRow < endRowExclusive` and `startCol < endColExclusive`. -/
theorem claim_C2_amended (sid : Int) (ls1 ds1 ls2 ds2 : List Char)
    (hl1 : ∀ c ∈ ls1, isUpperAZ c = true) (_hl1n : ls1 ≠ [])
    (hd1 : ∀ c ∈ ds1, isDigit09 c = true) (hd1n : ds1 ≠ [])
    (hl2 : ∀ c ∈ ls2, isUpperAZ c = true) (_hl2n : ls2 ≠ [])
    (hd2 : ∀ c ∈ ds2, isDigit09 c = true) (hd2n : ds2 ≠ [])
    (hrow : digitsVal 0 ds1 ≤ digitsVal 0 ds2)
    (hcol : lettersVal 0 ls1 ≤ lettersVal 0 ls2) :
    parseGridRange sid (rangeOfParts ls1 ds1 ls2 ds2) =
      Except.ok { sheetId := sid, startRowIndex := digitsVal 0 ds1 - 1,
                  endRowIndex := digitsVal 0 ds2,
                  startColumnIndex := lettersVal 0 ls1 - 1,
                  endColumnIndex := lettersVal 0 ls2 }
    ∧ digitsVal 0 ds1 - 1 < digitsVal 0 ds2
    ∧ lettersVal 0 ls1 - 1 < lettersVal 0 ls2 := by
  have hnc1 : ∀ c ∈ ls1 ++ ds1, c ≠ ':' := by
    intro c hc
    rcases List.mem_append.mp hc with h | h
    · exact isUpperAZ_ne_colon c (hl1 c h)
    · exact isDigit09_ne_colon c (hd1 c h)
  have hnc2 : ∀ c ∈ ls2 ++ ds2, c ≠ ':' := by
    intro c hc
    rcases List.mem_append.mp hc with h | h
    · exact isUpperAZ_ne_colon c (hl2 c h)
    · exact isDigit09_ne_colon c (hd2 c h)
  have hsplit : splitOnSep [':'] (rangeOfParts ls1 ds1 ls2 ds2).data
      = [ls1 ++ ds1, ls2 ++ ds2] := by
    have hdata : (rangeOfParts ls1 ds1 ls2 ds2).data
        = (ls1 ++ ds1) ++ ':' :: (ls2 ++ ds2) := rfl
    rw [hdata]
    exact splitOnSep_pair ':' _ _ hnc1 hnc2
  refine ⟨?_, by omega, by omega⟩
  unfold parseGridRange
  rw [hsplit]
  simp only [parseA1Cell_parts ls1 ds1 hl1 hd1 hd1n, parseA1Cell_parts ls2 ds2 hl2 hd2 hd2n]
  have h1 : digitsVal 0 ds2 - 1 + 1 = digitsVal 0 ds2 := by omega
  have h2 : lettersVal 0 ls2 - 1 + 1 = lettersVal 0 ls2 := by omega
  rw [h1, h2]

/-- Claim C2, witness for the amended theorem at the range `"A1:B2"`. -/
theorem claim_C2_witness :
    parseGridRange 7 (rangeOfParts ['A'] ['1'] ['B'] ['2']) =
      Except.ok { sheetId := 7, startRowIndex := digitsVal 0 ['1'] - 1,
                  endRowIndex := digitsVal 0 ['2'],
                  startColumnIndex := lettersVal 0 ['A'] - 1,
                  endColumnIndex := lettersVal 0 ['B'] }
    ∧ digitsVal 0 ['1'] - 1 < digitsVal 0 ['2']
    ∧ lettersVal 0 ['A'] - 1 < lettersVal 0 ['B'] :=
  claim_C2_amended 7 ['A'] ['1'] ['B'] ['2'] (by decide) (by decide) (by decide) (by decide)
    (by decide) (by decide) (by decide) (by decide) (by decide) (by decide)

/-- Claim C3, counterexample: `"123"` has an *empty* leading letter run, yet
cell decoding does **not** fail: it returns column `-1` and row `122`.  The
claimed "fails exactly when the letter run is empty" is false on the code. -/
theorem claim_C3_counterexample :
    "123".data.takeWhile isUpperAZ = [] ∧ parseA1Cell "123" = Except.ok (-1, 122) := by
  exact ⟨rfl, rfl⟩

/-- Claim C3 (amended): cell decoding fails exactly when the string is
exhausted at the end of the (possibly empty) leading letter run, or when
some character after the letter run is a non-digit; an empty letter run by
itself is accepted (yielding column `-1`).  In particular `"A1"` alone (no
colon), `"1A:B2"` and `"A:B2"` all fail with a range/cell-notation error and
return no partial result. -/
theorem claim_C3_amended (cell : String) :
    (isOkCell (parseA1Cell cell) = false ↔
      restAfterLetters cell = [] ∨ ∃ c ∈ restAfterLetters cell, isDigit09 c = false)
    ∧ parseGridRange 0 "A1" = Except.error "range must be in A1:B2 format"
    ∧ parseGridRange 0 "1A:B2" = Except.error "invalid cell notation: 1A"
    ∧ parseGridRange 0 "A:B2" = Except.error "invalid cell notation: A" := by
  refine ⟨?_, rfl, rfl, rfl⟩
  unfold parseA1Cell restAfterLetters
  rcases hp : consumeLetters cell.data 0 with ⟨a, rest⟩
  cases rest with
  | nil => simp [isOkCell]
  | cons c cs =>
    rcases hd : consumeDigits (c :: cs) 0 with _ | r
    · have hex := (consumeDigits_eq_none_iff (c :: cs) 0).mp hd
      simp only [hd, isOkCell]
      simpa using hex
    · have hnone : ¬∃ x ∈ c :: cs, isDigit09 x = false := by
        intro hex
        have hcontra := (consumeDigits_eq_none_iff (c :: cs) 0).mpr hex
        rw [hd] at hcontra
        exact Option.noConfusion hcontra
      simp only [hd, isOkCell]
      simpa using hnone

/-- Claim C4, counterexample: with recipients (valid, invalid-role, valid)
the share handler does not aggregate the per-recipient outcomes into one
ordered result list: it returns the pair `(successes, failures)`, and
neither concatenation of those two lists preserves the input order of the
per-recipient outcomes. -/
theorem claim_C4_counterexample :
    shareAggregatedSpec alwaysOkPerm true shareRecipients3 = [shareOut1, shareOut2, shareOut3]
    ∧ shareRecipientsLoop alwaysOkPerm true shareRecipients3 = ([shareOut1, shareOut3], [shareOut2])
    ∧ [shareOut1, shareOut3] ++ [shareOut2] ≠ [shareOut1, shareOut2, shareOut3]
    ∧ [shareOut2] ++ [shareOut1, shareOut3] ≠ [shareOut1, shareOut2, shareOut3] := by
  exact ⟨rfl, rfl, by decide, by decide⟩

/-- Claim C4 (amended): the share handler processes each recipient
independently, records each failing recipient as an envelope carrying its
email address (null when absent) plus an error field and continues; it
aggregates the outcomes into **two** lists, `successes` and `failures`, each
of which preserves the relative input order of its recipients. -/
theorem claim_C4_amended (createPerm : String → String → Bool → Except String String)
    (sn : Bool) (recipients : List Recipient) :
    shareRecipientsLoop createPerm sn recipients =
      ((shareAggregatedSpec createPerm sn recipients).filter ShareOutcome.isSuccess,
       (shareAggregatedSpec createPerm sn recipients).filter (fun o => !o.isSuccess)) := by
  induction recipients with
  | nil => rfl
  | cons r rest ih =>
    cases ho : (processOneRecipient createPerm sn r).isSuccess
    · simp [shareRecipientsLoop, shareAggregatedSpec, List.filter_cons, ho, ih]
    · simp [shareRecipientsLoop, shareAggregatedSpec, List.filter_cons, ho, ih]

/-- Claim C5: a URI without the `scheme://` separator does fail with the
invalid-URI-format error before any remote call, but a URI *missing the
spreadsheet-id segment* (e.g. `"spreadsheet://"`) does **not**: the
missing-id check `len(pathParts) < 1` at handlers.go:807 is unreachable
(`strings.Split` always returns at least one element), so the handler
proceeds to the remote metadata call with an empty spreadsheet id. -/
theorem claim_C5_code_bug :
    handleGetSpreadsheetInfo "abc" = InfoResult.uriFailure "invalid URI format"
    ∧ handleGetSpreadsheetInfo "spreadsheet://" = InfoResult.remoteCall ""
    ∧ ∀ uri : String, isMissingIdFailure (handleGetSpreadsheetInfo uri) = false := by
  refine ⟨rfl, rfl, ?_⟩
  intro uri
  simp only [handleGetSpreadsheetInfo]
  split
  · rfl
  · split
    · next h => exact absurd h (Nat.not_lt.mpr (splitOnSep_length_pos ['/'] _))
    · rfl

/-- Claim C6: for three multi-read queries whose second has an empty `sheet`
field (and whose first and third are complete and fetch successfully), the
result is a length-3 sequence in input order: items 1 and 3 carry `data`,
item 2 carries an `error` and no `data`; the failure does not abort the
batch. -/
theorem claim_C6 (fetch : String → String → Except String (List (List DynVal)))
    (q1 q2 q3 : MultiQuery) (v1 v3 : List (List DynVal))
    (h1a : q1.spreadsheetId ≠ "") (h1b : q1.sheet ≠ "") (h1c : q1.rangeStr ≠ "")
    (h2 : q2.sheet = "")
    (h3a : q3.spreadsheetId ≠ "") (h3b : q3.sheet ≠ "") (h3c : q3.rangeStr ≠ "")
    (hf1 : fetch q1.spreadsheetId (q1.sheet ++ "!" ++ q1.rangeStr) = Except.ok v1)
    (hf3 : fetch q3.spreadsheetId (q3.sheet ++ "!" ++ q3.rangeStr) = Except.ok v3) :
    processMultiQueries fetch [q1, q2, q3] =
      [MultiItem.data q1.spreadsheetId q1.sheet q1.rangeStr v1,
       MultiItem.err q2.spreadsheetId q2.sheet q2.rangeStr missingKeysMsg,
       MultiItem.data q3.spreadsheetId q3.sheet q3.rangeStr v3] := by
  simp [processMultiQueries, h1a, h1b, h1c, h2, h3a, h3b, h3c, hf1, hf3]

/-- Claim C6, witness at a concrete three-query batch. -/
theorem claim_C6_witness :
    (mq1.spreadsheetId ≠ "" ∧ mq1.sheet ≠ "" ∧ mq1.rangeStr ≠ "" ∧ mq2.sheet = ""
      ∧ mq3.spreadsheetId ≠ "" ∧ mq3.sheet ≠ "" ∧ mq3.rangeStr ≠ "")
    ∧ processMultiQueries stubFetch [mq1, mq2, mq3] =
        [MultiItem.data mq1.spreadsheetId mq1.sheet mq1.rangeStr [[DynVal.str "v"]],
         MultiItem.err mq2.spreadsheetId mq2.sheet mq2.rangeStr missingKeysMsg,
         MultiItem.data mq3.spreadsheetId mq3.sheet mq3.rangeStr [[DynVal.str "v"]]] :=
  ⟨⟨by decide, by decide, by decide, by decide, by decide, by decide, by decide⟩,
   claim_C6 stubFetch mq1 mq2 mq3 [[DynVal.str "v"]] [[DynVal.str "v"]]
     (by decide) (by decide) (by decide) (by decide) (by decide) (by decide) (by decide)
     rfl rfl⟩

/-- Claim C7: column decoding is base-26 with A=1 then zero-based
(`"A"→0`, `"Z"→25`, `"AA"→26`, `"AZ"→51`, `"BA"→52`) and row decoding is
1-based decimal then zero-based (`"A1"`→row 0, `"A10"`→row 9). -/
theorem claim_C7 :
    decodeColumn "A" = 0 ∧ decodeColumn "Z" = 25 ∧ decodeColumn "AA" = 26
    ∧ decodeColumn "AZ" = 51 ∧ decodeColumn "BA" = 52
    ∧ parseA1Cell "A1" = Except.ok (0, 0) ∧ parseA1Cell "A10" = Except.ok (0, 9) := by
  exact ⟨rfl, rfl, rfl, rfl, rfl, rfl, rfl⟩

/-- Claim C8: `parseArgument(bag, key, default)` returns the stored value
exactly when the key is present with the default's dynamic type, and the
default silently otherwise (key absent, or dynamic type mismatch); in
particular a bag binding `"count"` to the string `"five"` with default `0`
yields `0`. -/
theorem claim_C8 (args : ArgBag) (key : String) (d : DynVal) :
    (∀ v, lookupArg args key = some v → v.tag = d.tag → parseArgument args key d = v)
    ∧ (∀ v, lookupArg args key = some v → v.tag ≠ d.tag → parseArgument args key d = d)
    ∧ (lookupArg args key = none → parseArgument args key d = d)
    ∧ parseArgument [("count", DynVal.str "five")] "count" (DynVal.num 0) = DynVal.num 0 := by
  refine ⟨?_, ?_, ?_, rfl⟩
  · intro v hv ht
    unfold parseArgument
    rw [hv]
    simp [ht]
  · intro v hv ht
    unfold parseArgument
    rw [hv]
    simp [ht]
  · intro hv
    unfold parseArgument
    rw [hv]

/-- Claim C8, witness: the type-mismatch fallback at the concrete bag. -/
theorem claim_C8_witness :
    lookupArg [("count", DynVal.str "five")] "count" = some (DynVal.str "five")
    ∧ parseArgument [("count", DynVal.str "five")] "count" (DynVal.num 0) = DynVal.num 0 :=
  ⟨rfl, (claim_C8 [("count", DynVal.str "five")] "count" (DynVal.num 0)).2.1
    (DynVal.str "five") rfl (by decide)⟩

/-- Claim C9: every find/replace batch-update request the handler issues has
`SearchByRegex = false` and `IncludeFormulas = true`, whatever the
arguments. -/
theorem claim_C9 (getSheetID : String → String → Except String Int) (args : ArgBag)
    (r : FindReplaceRequest)
    (h : handleFindReplace getSheetID args = FindReplaceOutcome.request r) :
    r.searchByRegex = false ∧ r.includeFormulas = true := by
  have hp : requestFlagsOk (handleFindReplace getSheetID args) := by
    simp only [handleFindReplace]
    split
    · exact trivial
    · split
      · split
        · exact trivial
        · split
          · exact trivial
          · exact ⟨rfl, rfl⟩
      · exact ⟨rfl, rfl⟩
  rw [h] at hp
  exact hp

/-- Claim C9, witness at a concrete all-sheets invocation. -/
theorem claim_C9_witness :
    frReq.searchByRegex = false ∧ frReq.includeFormulas = true :=
  claim_C9 stubSheetID frArgs frReq (by rfl)

/-- Claim C10: a recipient with a missing or empty role is treated as role
`"writer"` (a writer permission is created when the remote call succeeds);
only a non-empty role outside reader/commenter/writer yields the
invalid-role failure entry. -/
theorem claim_C10 :
    (∀ (createPerm : String → String → Bool → Except String String) (sn : Bool) (email : String),
       processOneRecipient createPerm sn ⟨email, ""⟩
         = processOneRecipient createPerm sn ⟨email, "writer"⟩)
    ∧ (∀ (createPerm : String → String → Bool → Except String String) (sn : Bool)
         (email pid : String), email ≠ "" → createPerm email "writer" sn = Except.ok pid →
        processOneRecipient createPerm sn ⟨email, ""⟩ = ShareOutcome.success email "writer" pid)
    ∧ (∀ (createPerm : String → String → Bool → Except String String) (sn : Bool)
         (email role : String), email ≠ "" → role ≠ "" →
        role ≠ "reader" → role ≠ "commenter" → role ≠ "writer" →
        processOneRecipient createPerm sn ⟨email, role⟩ =
          ShareOutcome.failure (some email) (invalidRoleMsg role)) := by
  refine ⟨?_, ?_, ?_⟩
  · intro createPerm sn email
    rfl
  · intro createPerm sn email pid he hc
    simp [processOneRecipient, he, hc]
  · intro createPerm sn email role he hr0 hr1 hr2 hr3
    simp [processOneRecipient, he, hr0, hr1, hr2, hr3]

/-- Claim C10, witness: an empty role with a valid email becomes a writer
permission. -/
theorem claim_C10_witness :
    ("a@x.com" : String) ≠ ""
    ∧ processOneRecipient alwaysOkPerm true ⟨"a@x.com", ""⟩ =
        ShareOutcome.success "a@x.com" "writer" "p1" :=
  ⟨by decide, claim_C10.2.1 alwaysOkPerm true "a@x.com" "p1" (by decide) rfl⟩

end SheetsMCP
